import Mathlib

/-!
Shallow embedding of the React UI layer in `src/App.tsx` of the
Tauri-GetDetectedText-Desktop repository.

The component keeps four pieces of state (`isDetecting`, `hasPermissions`,
`selectedTexts`, `status`), folds events from two push channels into the
bounded `selectedTexts` list, and issues three backend calls
(`check_permissions`, `start_text_detection`, `stop_text_detection`) whose
resolution or rejection updates the state.  Backend call outcomes are
modelled as `Except String _` values (the rejection reason stringified, as
the UI only ever stringifies it); the local receipt clock is passed as an
explicit argument to the hotkey handler.
-/

/-- `selection_type` field of a `SelectionEvent` (App.tsx line 11). -/
inductive SelectionType where
  | Selected
  | Hovered
  | Focused
deriving DecidableEq, Repr

/-- The `SelectionEvent` interface (App.tsx lines 7-12).  `timestamp` is
seconds since epoch; it is carried abstractly as an integer-valued clock
reading. -/
structure SelectionEvent where
  text : String
  app_name : String
  timestamp : Int
  selection_type : SelectionType
deriving DecidableEq, Repr

/-- The component state: the four `useState` hooks of `App`
(App.tsx lines 15-18). -/
structure AppState where
  isDetecting : Bool
  hasPermissions : Bool
  selectedTexts : List SelectionEvent
  status : String
deriving DecidableEq, Repr

/-- The initial state of the four hooks (App.tsx lines 15-18). -/
def initialState : AppState :=
  { isDetecting := false
    hasPermissions := false
    selectedTexts := []
    status := "Ready" }

/-- Handler of the `text-selection-changed` channel (App.tsx lines 25-31):
`setSelectedTexts((prev) => [event.payload, ...prev.slice(0, 9)])`. -/
def onSelectionChanged (payload : SelectionEvent) (s : AppState) : AppState :=
  { s with selectedTexts := payload :: s.selectedTexts.take 9 }

/-- Handler of the `hotkey-selection-detected` channel (App.tsx lines
34-46): it synthesizes a `SelectionEvent` from the raw string payload,
with `app_name = "Unknown (Hotkey)"`, `timestamp = Date.now() / 1000`
(the local receipt time, passed here as `now`) and
`selection_type = "Selected"`, then prepends it the same way. -/
def onHotkeySelection (payload : String) (now : Int) (s : AppState) : AppState :=
  { s with selectedTexts :=
      { text := payload
        app_name := "Unknown (Hotkey)"
        timestamp := now
        selection_type := SelectionType.Selected } :: s.selectedTexts.take 9 }

/-- One arrival on one of the two channels; the interleaving of the two
channels is a list of such arrivals. -/
inductive Arrival where
  | structured (e : SelectionEvent)
  | hotkey (payload : String) (now : Int)
deriving DecidableEq, Repr

/-- Dispatch one arrival to the matching channel handler. -/
def ingest (a : Arrival) (s : AppState) : AppState :=
  match a with
  | Arrival.structured e => onSelectionChanged e s
  | Arrival.hotkey p now => onHotkeySelection p now s

/-- Fold a whole arrival sequence (in arrival order) into the state. -/
def ingestAll (as : List Arrival) (s : AppState) : AppState :=
  as.foldl (fun s a => ingest a s) s

/-- The `SelectionEvent` an arrival contributes to the list: the payload
itself on the structured channel, the synthesized event on the hotkey
channel. -/
def arrivalEvent (a : Arrival) : SelectionEvent :=
  match a with
  | Arrival.structured e => e
  | Arrival.hotkey p now =>
      { text := p
        app_name := "Unknown (Hotkey)"
        timestamp := now
        selection_type := SelectionType.Selected }

/-- The `checkPermissions` round trip (App.tsx lines 54-63), given the
outcome of the `check_permissions` invoke.  On success it stores the
boolean and sets the corresponding status; on rejection it only sets the
fixed status string. -/
def checkPermissions (result : Except String Bool) (s : AppState) : AppState :=
  match result with
  | Except.ok permissions =>
      { s with hasPermissions := permissions
               status := if permissions then "Permissions granted"
                         else "Permissions needed" }
  | Except.error _ => { s with status := "Error checking permissions" }

/-- The `startDetection` round trip (App.tsx lines 65-75), given the
outcome of the `start_text_detection` invoke.  (The transient
"Starting detection..." status set before the await is overwritten by the
outcome; the model gives the state after the round trip completes.) -/
def startDetection (result : Except String String) (s : AppState) : AppState :=
  match result with
  | Except.ok r => { s with isDetecting := true, status := r }
  | Except.error e => { s with status := "Error: " ++ e }

/-- The `stopDetection` round trip (App.tsx lines 77-87), given the
outcome of the `stop_text_detection` invoke. -/
def stopDetection (result : Except String String) (s : AppState) : AppState :=
  match result with
  | Except.ok r => { s with isDetecting := false, status := r }
  | Except.error e => { s with status := "Error: " ++ e }

/-- The start button is rendered exactly when `!isDetecting`
(App.tsx line 124). -/
def showsStartControl (s : AppState) : Bool := !s.isDetecting

/-- The stop button is rendered exactly when `isDetecting`
(App.tsx lines 124, 132-136). -/
def showsStopControl (s : AppState) : Bool := s.isDetecting

/-- The start button's `disabled` attribute: `disabled={!hasPermissions}`
(App.tsx line 127). -/
def startControlDisabled (s : AppState) : Bool := !s.hasPermissions

/-- The stop button carries no `disabled` attribute (App.tsx lines
133-135), so it is never disabled. -/
def stopControlDisabled (_ : AppState) : Bool := false

/-- Clicking the start button: the `onClick` fires only when the button is
rendered and not disabled; otherwise the click is a no-op. -/
def clickStart (result : Except String String) (s : AppState) : AppState :=
  if showsStartControl s && !startControlDisabled s then startDetection result s
  else s

/-- Clicking the stop button: the `onClick` fires only when the button is
rendered and not disabled. -/
def clickStop (result : Except String String) (s : AppState) : AppState :=
  if showsStopControl s && !stopControlDisabled s then stopDetection result s
  else s

/-- `hasPrefixL sub l` : the char list `sub` is an initial segment of `l`. -/
def hasPrefixL : List Char → List Char → Bool
  | [], _ => true
  | _ :: _, [] => false
  | a :: as, b :: bs => a == b && hasPrefixL as bs

/-- `containsSubL sub l` : the char list `sub` occurs contiguously in `l`. -/
def containsSubL (sub : List Char) : List Char → Bool
  | [] => hasPrefixL sub []
  | c :: cs => hasPrefixL sub (c :: cs) || containsSubL sub cs

/-- `strContains s sub` : the string `sub` occurs as a contiguous
substring of `s`. -/
def strContains (s sub : String) : Bool :=
  containsSubL sub.data s.data

theorem hasPrefixL_self (l : List Char) : hasPrefixL l l = true := by
  induction l with
  | nil => rfl
  | cons c cs ih => simp [hasPrefixL, ih]

theorem hasPrefixL_append (sub rest : List Char) :
    hasPrefixL sub (sub ++ rest) = true := by
  induction sub with
  | nil => rfl
  | cons c cs ih => simp [hasPrefixL, ih]

theorem containsSubL_append_left (pre sub : List Char) :
    containsSubL sub (pre ++ sub) = true := by
  induction pre with
  | nil =>
      cases sub with
      | nil => rfl
      | cons c cs => simp [containsSubL, hasPrefixL_self]
  | cons p ps ih => simp [containsSubL, ih]

theorem strContains_append (pre e : String) :
    strContains (pre ++ e) e = true := by
  simpa [strContains, String.data_append] using
    containsSubL_append_left pre.data e.data

theorem length_selectedTexts_ingest (a : Arrival) (s : AppState) :
    (ingest a s).selectedTexts.length
      = min 9 s.selectedTexts.length + 1 := by
  cases a <;>
    simp [ingest, onSelectionChanged, onHotkeySelection, List.length_take]

theorem ingest_selectedTexts (a : Arrival) (s : AppState) :
    (ingest a s).selectedTexts
      = arrivalEvent a :: s.selectedTexts.take 9 := by
  cases a <;> simp [ingest, onSelectionChanged, onHotkeySelection, arrivalEvent]

theorem ingestAll_selectedTexts (as : List Arrival) (s : AppState)
    (L : List SelectionEvent) (h : s.selectedTexts = (L.reverse).take 10) :
    (ingestAll as s).selectedTexts
      = (((L ++ as.map arrivalEvent).reverse).take 10) := by
  induction as generalizing s L with
  | nil => simpa [ingestAll] using h
  | cons a as ih =>
      have hstep : (ingest a s).selectedTexts
          = ((L ++ [arrivalEvent a]).reverse).take 10 := by
        rw [ingest_selectedTexts, h]
        simp [List.take_take]
      have := ih (ingest a s) (L ++ [arrivalEvent a]) hstep
      simpa [ingestAll, List.foldl_cons] using this

theorem ingestAll_from_empty (as : List Arrival) :
    (ingestAll as initialState).selectedTexts
      = ((as.map arrivalEvent).reverse).take 10 := by
  simpa using ingestAll_selectedTexts as initialState [] (by rfl)

/-- Claim C1: starting from the empty list, after any interleaving of
arrivals over the two channels the displayed selection list has length
exactly `min 10 (total arrivals)`, hence never more than 10. -/
theorem C1_list_length_min_ten (as : List Arrival) :
    (ingestAll as initialState).selectedTexts.length = min 10 as.length ∧
    (ingestAll as initialState).selectedTexts.length ≤ 10 := by
  constructor
  · rw [ingestAll_from_empty]
    simp [List.length_take, Nat.min_comm]
  · rw [ingestAll_from_empty]
    simp [List.length_take]

/-- Claim C3: a hotkey-channel payload is folded in as an event whose
`selection_type` is `Selected`, whose `app_name` is the fixed
`"Unknown (Hotkey)"` sentinel, whose `text` is the payload, and whose
`timestamp` is the local receipt time `now`, prepended to the truncated
previous list. -/
theorem C3_hotkey_synthesis (payload : String) (now : Int) (s : AppState) :
    (onHotkeySelection payload now s).selectedTexts
      = { text := payload
          app_name := "Unknown (Hotkey)"
          timestamp := now
          selection_type := SelectionType.Selected } :: s.selectedTexts.take 9 := by
  rfl

/-- Claim C4: eleven structured events `e1 .. e11` arriving in order on
the structured channel, starting from the empty list, leave exactly
`[e11, e10, ..., e2]` displayed: ten items, `e1` evicted. -/
theorem C4_eleven_events (e1 e2 e3 e4 e5 e6 e7 e8 e9 e10 e11 : SelectionEvent) :
    (ingestAll
      [Arrival.structured e1, Arrival.structured e2, Arrival.structured e3,
       Arrival.structured e4, Arrival.structured e5, Arrival.structured e6,
       Arrival.structured e7, Arrival.structured e8, Arrival.structured e9,
       Arrival.structured e10, Arrival.structured e11]
      initialState).selectedTexts
      = [e11, e10, e9, e8, e7, e6, e5, e4, e3, e2] := by
  rfl

/-- Claim C5: for every interleaving of arrivals on the two channels the
displayed list is exactly the last (up to) ten arrival events in reverse
arrival order — i.e. ordered by local arrival, newest first, independent
of the timestamps embedded in the events. -/
theorem C5_newest_first (as : List Arrival) :
    (ingestAll as initialState).selectedTexts
      = ((as.map arrivalEvent).reverse).take 10 :=
  ingestAll_from_empty as

/-- Claim C9: event ingestion on either channel mutates only the
selection list: the detection flag, the permission flag and the status
line are unchanged. -/
theorem C9_ingest_frame (a : Arrival) (s : AppState) :
    (ingest a s).isDetecting = s.isDetecting ∧
    (ingest a s).hasPermissions = s.hasPermissions ∧
    (ingest a s).status = s.status := by
  cases a <;> simp [ingest, onSelectionChanged, onHotkeySelection]

/-- Claim C2 counterexample: `check_permissions` rejecting with reason
`"boom"` sets the status line to the fixed string
`"Error checking permissions"`, which does not contain `"boom"` — so the
claim that every rejecting backend call puts the string representation of
the rejection reason into the status line is false. -/
theorem C2_counterexample :
    strContains (checkPermissions (Except.error "boom") initialState).status
        "boom" = false ∧
    (checkPermissions (Except.error "boom") initialState).status
        = "Error checking permissions" := by
  constructor
  · rfl
  · rfl

/-- Claim C2 (amended): when `start_text_detection` or
`stop_text_detection` rejects, the status line is `"Error: "` followed by
the rejection reason (hence contains it); when `check_permissions`
rejects, the status line is the fixed generic string
`"Error checking permissions"`.  In all three cases the local detection
flag is unchanged from its prior value. -/
theorem C2_rejection_behavior (e : String) (s : AppState) :
    ((startDetection (Except.error e) s).status = "Error: " ++ e ∧
     strContains (startDetection (Except.error e) s).status e = true ∧
     (startDetection (Except.error e) s).isDetecting = s.isDetecting) ∧
    ((stopDetection (Except.error e) s).status = "Error: " ++ e ∧
     strContains (stopDetection (Except.error e) s).status e = true ∧
     (stopDetection (Except.error e) s).isDetecting = s.isDetecting) ∧
    ((checkPermissions (Except.error e) s).status
        = "Error checking permissions" ∧
     (checkPermissions (Except.error e) s).isDetecting = s.isDetecting) := by
  refine ⟨⟨rfl, ?_, rfl⟩, ⟨rfl, ?_, rfl⟩, rfl, rfl⟩
  · exact strContains_append "Error: " e
  · exact strContains_append "Error: " e

/-- Claim C6: a successful `start_text_detection` sets the detection flag,
displays the returned string, shows the stop control and hides the start
control; a successful `stop_text_detection` clears the flag, displays the
returned string, shows the start control and hides the stop control. -/
theorem C6_success_transitions (r : String) (s : AppState) :
    ((startDetection (Except.ok r) s).isDetecting = true ∧
     (startDetection (Except.ok r) s).status = r ∧
     showsStopControl (startDetection (Except.ok r) s) = true ∧
     showsStartControl (startDetection (Except.ok r) s) = false) ∧
    ((stopDetection (Except.ok r) s).isDetecting = false ∧
     (stopDetection (Except.ok r) s).status = r ∧
     showsStartControl (stopDetection (Except.ok r) s) = true ∧
     showsStopControl (stopDetection (Except.ok r) s) = false) := by
  simp [startDetection, stopDetection, showsStartControl, showsStopControl]

/-- Claim C7: a failed `check_permissions` call sets the status line to
the fixed generic error string and leaves the permission indicator at its
last-known value. -/
theorem C7_check_failure (e : String) (s : AppState) :
    (checkPermissions (Except.error e) s).status
        = "Error checking permissions" ∧
    (checkPermissions (Except.error e) s).hasPermissions
        = s.hasPermissions := by
  exact ⟨rfl, rfl⟩

/-- Claim C8: `check_permissions` resolving `true` sets the permission
flag and makes the start control enabled (its `disabled` attribute is
false); resolving `false` clears the flag, sets the needs-permission
status, leaves the start control disabled, and clicking start in that
state has no effect. -/
theorem C8_permission_outcomes (s : AppState) (r : Except String String) :
    ((checkPermissions (Except.ok true) s).hasPermissions = true ∧
     startControlDisabled (checkPermissions (Except.ok true) s) = false ∧
     (checkPermissions (Except.ok true) s).status = "Permissions granted") ∧
    ((checkPermissions (Except.ok false) s).hasPermissions = false ∧
     (checkPermissions (Except.ok false) s).status = "Permissions needed" ∧
     startControlDisabled (checkPermissions (Except.ok false) s) = true ∧
     clickStart r (checkPermissions (Except.ok false) s)
        = checkPermissions (Except.ok false) s) := by
  refine ⟨⟨rfl, ?_, rfl⟩, rfl, rfl, ?_, ?_⟩
  · simp [startControlDisabled, checkPermissions]
  · simp [startControlDisabled, checkPermissions]
  · simp [clickStart, startControlDisabled, checkPermissions]

/-- Claim C10: the stop control never carries a disabled attribute, so
whenever the detection flag is active clicking stop invokes
`stop_text_detection` regardless of the permission flag, while the start
control's disabled attribute is gated on the permission flag. -/
theorem C10_stop_never_disabled (s : AppState) (r : Except String String) :
    stopControlDisabled s = false ∧
    (s.isDetecting = true → clickStop r s = stopDetection r s) ∧
    startControlDisabled s = !s.hasPermissions := by
  refine ⟨rfl, ?_, rfl⟩
  intro h
  simp [clickStop, showsStopControl, stopControlDisabled, h]

/-- Witness for C10 at a concrete detecting state with permissions absent:
the stop click still performs the stop round trip. -/
theorem C10_stop_never_disabled_witness :
    stopControlDisabled { initialState with isDetecting := true } = false ∧
    clickStop (Except.ok "stopped") { initialState with isDetecting := true }
        = stopDetection (Except.ok "stopped")
            { initialState with isDetecting := true } ∧
    startControlDisabled { initialState with isDetecting := true } = true := by
  have h := C10_stop_never_disabled
    { initialState with isDetecting := true } (Except.ok "stopped")
  exact ⟨h.1, h.2.1 rfl, by simpa [initialState] using h.2.2⟩
